import Mathlib

/-!
Verification of the icon resolution, fallback-chain, staleness and
fetch-deduplication logic of `src/colibri/src/api/icons.rs`.

The handlers are embedded shallowly: every collaborator call that the file
makes (path resolution, directory probing, file metadata, file deletion,
elapsed-time computation, the underlying-asset lookup and the content
responder `icons::get_icon`) is a field of a deterministic oracle `Env`,
and the observable side effects of one request (the in-flight task registry,
the remote fetches dispatched, the files deleted) are threaded through an
explicit state `St`.  Durations are in whole seconds (`Duration::as_secs`).
-/

namespace Colibri

/-- Status codes used by the handlers (subset of HTTP status codes). -/
inductive StatusCode where
  | OK
  | NOT_MODIFIED
  | NOT_FOUND
  | ACCEPTED
  | INTERNAL_SERVER_ERROR
  deriving DecidableEq, Repr

/-- Seconds in an hour (source constant `HOUR_IN_SECS`). -/
def HOUR_IN_SECS : Nat := 60 * 60

/-- Negative-cache window in seconds (source constant `MAX_ICON_RECHECK_PERIOD`,
twelve hours). -/
def MAX_ICON_RECHECK_PERIOD : Nat := HOUR_IN_SECS * 12

/-- Namespace used to build fetch-task keys (source constant
`QUERY_ICONS_TASK_PREFIX` from `api/constants.rs`; its concrete value is
irrelevant to the logic, only that it is a fixed string). -/
def QUERY_ICONS_TASK_NS : String := "query_icons"

/-- File metadata as the handlers consume it: the byte length and the
(fallible) last-modified timestamp, `std::fs::Metadata::{len, modified}`. -/
structure Metadata where
  len : Nat
  modified : Except Unit Nat
  deriving Repr

/-- Deterministic oracle for the collaborator calls one request makes:

* `assetPath a c` — `icons::get_asset_path(a, data_dir, c, globaldb)`;
* `findIcon p a` — `icons::find_icon(data_dir, p, a)`;
* `metadata p` — `tokio::fs::metadata(p)`;
* `removeFile p` — `tokio::fs::remove_file(p)`;
* `durationSince t` — `SystemTime::now().duration_since(t)` in seconds;
* `underlying a` — `globaldb.get_single_underlying_token_with_protocol(a)`;
* `iconsGetIcon m p` — `icons::get_icon(data_dir, a, m, p, globaldb)` for the
  request's fixed asset id. -/
structure Env where
  assetPath : String → Bool → String
  findIcon : String → String → Option String
  metadata : String → Except Unit Metadata
  removeFile : String → Except Unit Unit
  durationSince : Nat → Except Unit Nat
  underlying : String → Except Unit (Option String)
  iconsGetIcon : Option String → String → StatusCode × Option String × Option (List Nat)

/-- Observable effects of one request: the shared in-flight task registry
(`state.active_tasks`), the remote fetches dispatched by `tokio::spawn`
(asset id paired with the destination path) and the files whose deletion
succeeded. -/
structure St where
  active_tasks : List String
  spawned : List (String × String)
  removed : List String
  deriving DecidableEq, Repr

/-- Embeds `query_icon` (icons.rs lines 183-206): build the task key, and
under the registry lock try to insert it; if it was already present return
`Accepted` without spawning, otherwise spawn the remote fetch and return
`Accepted`.  The key stays in the registry while the fetch is in flight. -/
def query_icon (st : St) (asset_id path : String) : StatusCode × St :=
  let task_name := QUERY_ICONS_TASK_NS ++ "_" ++ asset_id
  if task_name ∈ st.active_tasks then (StatusCode.ACCEPTED, st)
  else
    (StatusCode.ACCEPTED,
      { st with
          active_tasks := task_name :: st.active_tasks,
          spawned := st.spawned ++ [(asset_id, path)] })

/-- Embeds `handle_non_empty_icon` (icons.rs lines 208-229): without
`force_refresh == Some(true)` return `OK`; otherwise delete the found file —
returning `InternalError` if the deletion fails — and dispatch a fetch via
`query_icon`. -/
def handle_non_empty_icon (env : Env) (st : St) (asset_id path found_path : String)
    (force_refresh : Option Bool) : StatusCode × St :=
  if force_refresh ≠ some true then (StatusCode.OK, st)
  else
    match env.removeFile found_path with
    | Except.error _ => (StatusCode.INTERNAL_SERVER_ERROR, st)
    | Except.ok _ =>
        query_icon { st with removed := st.removed ++ [found_path] } asset_id path

/-- Embeds `handle_empty_icon` (icons.rs lines 231-263): unreadable mtime or
uncomputable elapsed duration gives `InternalError`; an age strictly below
`MAX_ICON_RECHECK_PERIOD` gives `NotFound`; otherwise the marker's deletion is
attempted with the result ignored and the remote fetch is spawned directly
(without the `query_icon` registry), returning `Accepted`. -/
def handle_empty_icon (env : Env) (st : St) (asset_id path found_path : String)
    (metadata : Metadata) : StatusCode × St :=
  match metadata.modified with
  | Except.error _ => (StatusCode.INTERNAL_SERVER_ERROR, st)
  | Except.ok time =>
      match env.durationSince time with
      | Except.error _ => (StatusCode.INTERNAL_SERVER_ERROR, st)
      | Except.ok secs =>
          if secs < MAX_ICON_RECHECK_PERIOD then (StatusCode.NOT_FOUND, st)
          else
            let st1 :=
              match env.removeFile found_path with
              | Except.ok _ => { st with removed := st.removed ++ [found_path] }
              | Except.error _ => st
            (StatusCode.ACCEPTED,
              { st1 with spawned := st1.spawned ++ [(asset_id, path)] })

/-- Embeds `find_usable_icon` (icons.rs lines 266-274): locate a file via
`icons::find_icon`, drop it when its metadata is unreadable or its length is
zero. -/
def find_usable_icon (env : Env) (path asset_id : String) : Option String :=
  match env.findIcon path asset_id with
  | none => none
  | some found =>
      match env.metadata found with
      | Except.error _ => none
      | Except.ok meta => if meta.len > 0 then some found else none

/-- Embeds `check_icon_for_asset_id` (icons.rs lines 276-297): no file found
means dispatch via `query_icon`; unreadable metadata means `NotFound`; a
non-empty file goes to `handle_non_empty_icon` and an empty one to
`handle_empty_icon`. -/
def check_icon_for_asset_id (env : Env) (st : St) (asset_id path : String)
    (force_refresh : Option Bool) : StatusCode × St :=
  match env.findIcon path asset_id with
  | none => query_icon st asset_id path
  | some found_path =>
      match env.metadata found_path with
      | Except.error _ => (StatusCode.NOT_FOUND, st)
      | Except.ok metadata =>
          if metadata.len > 0 then
            handle_non_empty_icon env st asset_id path found_path force_refresh
          else handle_empty_icon env st asset_id path found_path metadata

/-- Embeds `get_underlying_id` (icons.rs lines 299-314): a lookup error is
logged and collapsed to `none`. -/
def get_underlying_id (env : Env) (asset_id : String) : Option String :=
  match env.underlying asset_id with
  | Except.ok r => r
  | Except.error _ => none

/-- The tail of `check_icon` after the own-path and collection-path candidates
(icons.rs lines 148-170): consult the underlying asset when one exists and
return its check result unconditionally, otherwise dispatch a fetch for the
own path via `query_icon`. -/
def check_icon_tail (env : Env) (st : St) (asset_id own_path : String)
    (force_refresh : Option Bool) : StatusCode × St :=
  match get_underlying_id env asset_id with
  | some underlying_id =>
      check_icon_for_asset_id env st underlying_id (env.assetPath underlying_id false)
        force_refresh
  | none => query_icon st asset_id own_path

/-- Embeds `check_icon` (icons.rs lines 101-171): a usable (non-empty) own
icon goes to `handle_non_empty_icon`; otherwise the collection candidate is
checked when its path differs from the own path, its result returned unless it
is `NotFound`; then the underlying hop or the final fetch dispatch. -/
def check_icon (env : Env) (st : St) (asset_id : String) (force_refresh : Option Bool) :
    StatusCode × St :=
  let own_path := env.assetPath asset_id false
  match find_usable_icon env own_path asset_id with
  | some found_path =>
      handle_non_empty_icon env st asset_id own_path found_path force_refresh
  | none =>
      let collection_path := env.assetPath asset_id true
      if collection_path ≠ own_path then
        let r := check_icon_for_asset_id env st asset_id collection_path force_refresh
        if r.1 ≠ StatusCode.NOT_FOUND then r
        else check_icon_tail env r.2 asset_id own_path force_refresh
      else check_icon_tail env st asset_id own_path force_refresh

/-- Embeds the `get_icon` handler (icons.rs lines 36-88): resolve the own
path and ask the content responder; only when that yields exactly `NotFound`
and the collection path differs is the collection path asked instead. -/
def get_icon (env : Env) (asset_id : String) (match_header : Option String) :
    StatusCode × Option String × Option (List Nat) :=
  let own_path := env.assetPath asset_id false
  let result := env.iconsGetIcon match_header own_path
  if result.1 = StatusCode.NOT_FOUND then
    let collection_path := env.assetPath asset_id true
    if collection_path ≠ own_path then env.iconsGetIcon match_header collection_path
    else result
  else result

/-- Modelled from the spec: the Content Responder `icons::get_icon`, whose
source is not part of the file under review.  Section 4.6: absent or
zero-length file yields `NotFound`; otherwise the bytes are read, a
fingerprint computed, a case-insensitively matching client token yields
`NotModified` with no body, and anything else yields `OK` with the body. -/
def content_respond (files : String → Option (List Nat)) (hash : List Nat → String)
    (match_token : Option String) (path : String) :
    StatusCode × Option String × Option (List Nat) :=
  match files path with
  | none => (StatusCode.NOT_FOUND, none, none)
  | some bytes =>
      if bytes.length = 0 then (StatusCode.NOT_FOUND, none, none)
      else
        let fp := hash bytes
        if match_token.map String.toLower = some fp.toLower then
          (StatusCode.NOT_MODIFIED, some fp, none)
        else (StatusCode.OK, some fp, some bytes)

/-- The empty effect state at the start of a request. -/
def st0 : St := { active_tasks := [], spawned := [], removed := [] }

/-- A baseline oracle: every path resolves to `"own"`, no file is found
anywhere, metadata reads fail, deletions succeed, elapsed time is 0 seconds,
no underlying relation exists and the content responder answers `NotFound`. -/
def envBase : Env where
  assetPath := fun _ _ => "own"
  findIcon := fun _ _ => none
  metadata := fun _ => Except.error ()
  removeFile := fun _ => Except.ok ()
  durationSince := fun _ => Except.ok 0
  underlying := fun _ => Except.ok none
  iconsGetIcon := fun _ _ => (StatusCode.NOT_FOUND, none, none)

/-- Oracle with a distinct collection path holding a zero-length marker whose
age is exactly the recheck period (stale). -/
def envA : Env :=
  { envBase with
      assetPath := fun _ c => if c then "coll" else "own"
      findIcon := fun p _ => if p = "coll" then some "collfile" else none
      metadata := fun p =>
        if p = "collfile" then Except.ok ⟨0, Except.ok 0⟩ else Except.error ()
      durationSince := fun _ => Except.ok MAX_ICON_RECHECK_PERIOD }

/-- A state in which a fetch for asset `XDAI` is already in flight. -/
def stA : St :=
  { active_tasks := [QUERY_ICONS_TASK_NS ++ "_XDAI"], spawned := [], removed := [] }

/-- Oracle whose own path holds a zero-length marker 60 seconds old (well
inside the 12-hour negative-cache window); the collection path collapses to
the own path and no underlying asset exists. -/
def envB : Env :=
  { envBase with
      findIcon := fun p _ => if p = "own" then some "ownfile" else none
      metadata := fun p =>
        if p = "ownfile" then Except.ok ⟨0, Except.ok 0⟩ else Except.error ()
      durationSince := fun _ => Except.ok 60 }

/-- Oracle with a distinct collection path holding a zero-length marker 60
seconds old (fresh). -/
def envC : Env :=
  { envBase with
      assetPath := fun _ c => if c then "coll" else "own"
      findIcon := fun p _ => if p = "coll" then some "collfile" else none
      metadata := fun p =>
        if p = "collfile" then Except.ok ⟨0, Except.ok 0⟩ else Except.error ()
      durationSince := fun _ => Except.ok 60 }

/-- Oracle whose own path holds a usable (non-empty) icon of a very large age;
deletions succeed. -/
def envD : Env :=
  { envBase with
      findIcon := fun p _ => if p = "own" then some "ownfile" else none
      metadata := fun p =>
        if p = "ownfile" then Except.ok ⟨5, Except.ok 0⟩ else Except.error ()
      durationSince := fun _ => Except.ok 999999999 }

/-- Oracle whose own path holds a usable icon but every deletion fails. -/
def envE : Env :=
  { envBase with
      findIcon := fun p _ => if p = "own" then some "ownfile" else none
      metadata := fun p =>
        if p = "ownfile" then Except.ok ⟨5, Except.ok 0⟩ else Except.error ()
      removeFile := fun _ => Except.error () }

/-- Concrete on-disk contents for the read path: a non-empty own icon and a
distinct non-empty collection icon. -/
def filesF : String → Option (List Nat) :=
  fun p => if p = "own" then some [1, 2] else if p = "coll" then some [3] else none

/-- A concrete executable fingerprint function for the read-path witnesses. -/
def hashF : List Nat → String := fun b => toString b.length

/-- Oracle whose content responder is the spec-modelled Content Responder over
`filesF`, with distinct own and collection paths both holding icons. -/
def envF : Env :=
  { envBase with
      assetPath := fun _ c => if c then "coll" else "own"
      iconsGetIcon := content_respond filesF hashF }

/-- Oracle whose collection path collapses to the own path and whose metadata
store reports underlying asset `U` for asset `X`. -/
def envG : Env :=
  { envBase with
      assetPath := fun a _ => if a = "U" then "upath" else "own"
      underlying := fun a => if a = "X" then Except.ok (some "U") else Except.ok none }

/-- Oracle identical to `envBase` except that the underlying-asset lookup
fails; `get_icon` must not be able to tell the two apart. -/
def envH : Env :=
  { envBase with underlying := fun _ => Except.error () }

/-- Oracle with a distinct collection path holding a zero-length marker whose
last-modified time is unreadable. -/
def envI : Env :=
  { envBase with
      assetPath := fun _ c => if c then "coll" else "own"
      findIcon := fun p _ => if p = "coll" then some "collfile" else none
      metadata := fun p =>
        if p = "collfile" then Except.ok ⟨0, Except.error ()⟩ else Except.error () }

/-- Oracle identical to `envBase` except that the underlying-asset lookup
fails with an error. -/
def envJ : Env :=
  { envBase with underlying := fun _ => Except.error () }

/-- Oracle in which every deletion fails and every marker is stale (its age
equals the recheck period). -/
def envK : Env :=
  { envBase with
      removeFile := fun _ => Except.error ()
      durationSince := fun _ => Except.ok MAX_ICON_RECHECK_PERIOD }

/-- C1, counterexample: the claim that every fetch-dispatching path of
`check_icon` first inserts the fetch key into the registry is false.  With a
fetch for asset `XDAI` already registered (`stA`) and a stale zero-length
marker at the collection path (`envA`), `check_icon` still dispatches a second
remote fetch for the same asset — the stale-retry branch of
`handle_empty_icon` spawns directly, leaving the registry untouched. -/
theorem check_icon_stale_retry_bypasses_registry :
    (QUERY_ICONS_TASK_NS ++ "_" ++ "XDAI") ∈ stA.active_tasks ∧
    stA.spawned = [] ∧
    (check_icon envA stA "XDAI" none).1 = StatusCode.ACCEPTED ∧
    (check_icon envA stA "XDAI" none).2.spawned = [("XDAI", "coll")] ∧
    (check_icon envA stA "XDAI" none).2.active_tasks = stA.active_tasks := by
  decide

/-- C1, amended: fetches dispatched through `query_icon` (the forced-refresh
path and the no-local-candidate path) are single-flight: a caller that finds
the fetch key already registered returns `Accepted` without spawning; a caller
that does not finds the key registered afterwards and spawns exactly one
fetch; and a second serialized call for the same asset spawns nothing.  (The
stale-marker retry path of `handle_empty_icon` bypasses this registry.) -/
theorem query_icon_single_flight (st : St) (a p : String) :
    ((QUERY_ICONS_TASK_NS ++ "_" ++ a) ∈ st.active_tasks →
      query_icon st a p = (StatusCode.ACCEPTED, st)) ∧
    ((QUERY_ICONS_TASK_NS ++ "_" ++ a) ∉ st.active_tasks →
      query_icon st a p =
        (StatusCode.ACCEPTED,
          { st with
              active_tasks := (QUERY_ICONS_TASK_NS ++ "_" ++ a) :: st.active_tasks,
              spawned := st.spawned ++ [(a, p)] })) ∧
    (query_icon (query_icon st a p).2 a p).2.spawned = (query_icon st a p).2.spawned := by
  refine ⟨fun h => by simp [query_icon, h], fun h => by simp [query_icon, h], ?_⟩
  by_cases h : (QUERY_ICONS_TASK_NS ++ "_" ++ a) ∈ st.active_tasks
  · simp [query_icon, h]
  · simp [query_icon, h]

/-- C1, witness for the amended theorem at a concrete input: with the key for
`XDAI` already registered, `query_icon` returns `Accepted` and changes
nothing. -/
theorem query_icon_single_flight_witness :
    query_icon stA "XDAI" "own" = (StatusCode.ACCEPTED, stA) :=
  (query_icon_single_flight stA "XDAI" "own").1 (by decide)

/-- C2: evaluating `check_icon` at the failing input.  The own path holds a
zero-length marker only 60 seconds old (far inside the 12-hour window), yet
the call returns `Accepted` and dispatches a new remote fetch instead of the
claimed `NotFound`: `find_usable_icon` filters out empty files, so the own
path never reaches the negative-cache logic of `handle_empty_icon`. -/
theorem check_icon_fresh_own_marker_refetches :
    envB.findIcon "own" "XDAI" = some "ownfile" ∧
    envB.metadata "ownfile" = Except.ok { len := 0, modified := Except.ok 0 } ∧
    envB.durationSince 0 = Except.ok 60 ∧
    (check_icon envB st0 "XDAI" none).1 = StatusCode.ACCEPTED ∧
    (check_icon envB st0 "XDAI" none).2.spawned = [("XDAI", "own")] :=
  ⟨by decide, rfl, rfl, by decide, by decide⟩

/-- C3, counterexample: with `force_refresh = true` and a zero-length marker
at the resolved (collection) path that is only 60 seconds old, `check_icon`
does not delete the marker (`removed = []`): `handle_empty_icon` never
receives the force flag, treats the fresh marker as `NotFound` at that hop,
and the chain falls through to a plain fetch dispatch for the own path. -/
theorem check_icon_force_fresh_marker_not_deleted :
    envC.findIcon "coll" "XDAI" = some "collfile" ∧
    envC.metadata "collfile" = Except.ok { len := 0, modified := Except.ok 0 } ∧
    envC.durationSince 0 = Except.ok 60 ∧
    (check_icon envC st0 "XDAI" (some true)).1 = StatusCode.ACCEPTED ∧
    (check_icon envC st0 "XDAI" (some true)).2.removed = [] :=
  ⟨by decide, rfl, rfl, by decide, by decide⟩

/-- C3, amended: forced refresh deletes the file and re-triggers a fetch for
every usable (non-empty) icon, regardless of the file's age — the oracle's
elapsed-time function is never consulted.  (For zero-length markers the force
flag is ignored by `handle_empty_icon`.) -/
theorem check_icon_force_refresh_usable_deletes_and_refetches (env : Env) (st : St)
    (a f : String)
    (hfind : find_usable_icon env (env.assetPath a false) a = some f)
    (hrm : env.removeFile f = Except.ok ())
    (hkey : (QUERY_ICONS_TASK_NS ++ "_" ++ a) ∉ st.active_tasks) :
    check_icon env st a (some true) =
      (StatusCode.ACCEPTED,
        { active_tasks := (QUERY_ICONS_TASK_NS ++ "_" ++ a) :: st.active_tasks,
          spawned := st.spawned ++ [(a, env.assetPath a false)],
          removed := st.removed ++ [f] }) := by
  simp [check_icon, hfind, handle_non_empty_icon, hrm, query_icon, hkey]

/-- C3, witness for the amended theorem: a usable own icon of enormous age is
deleted and a fetch is dispatched under `force_refresh`. -/
theorem check_icon_force_refresh_usable_witness :
    check_icon envD st0 "XDAI" (some true) =
      (StatusCode.ACCEPTED,
        { active_tasks := [QUERY_ICONS_TASK_NS ++ "_" ++ "XDAI"],
          spawned := [("XDAI", "own")],
          removed := ["ownfile"] }) := by
  have h := check_icon_force_refresh_usable_deletes_and_refetches envD st0 "XDAI" "ownfile"
    (by decide) rfl (by decide)
  simpa using h

/-- C4: when `force_refresh = true` finds a usable (non-empty) icon and the
deletion of that file fails, `check_icon` returns `InternalError` and leaves
the state untouched — in particular no fetch is dispatched. -/
theorem check_icon_force_refresh_delete_failure (env : Env) (st : St) (a f : String)
    (hfind : find_usable_icon env (env.assetPath a false) a = some f)
    (hrm : env.removeFile f = Except.error ()) :
    check_icon env st a (some true) = (StatusCode.INTERNAL_SERVER_ERROR, st) := by
  simp [check_icon, hfind, handle_non_empty_icon, hrm]

/-- C4, witness: a concrete oracle whose deletion fails. -/
theorem check_icon_force_refresh_delete_failure_witness :
    check_icon envE st0 "XDAI" (some true) = (StatusCode.INTERNAL_SERVER_ERROR, st0) :=
  check_icon_force_refresh_delete_failure envE st0 "XDAI" "ownfile" (by decide) rfl

/-- C5: `get_icon` attempts the own path first; the collection path is
attempted instead exactly when the own result is `NotFound` and the collection
path differs from the own path, and in all other cases the own result is
returned as-is.  With the content responder modelled from the spec, a present
non-empty own icon is served (its bytes returned with `OK`), regardless of
what the collection path holds. -/
theorem get_icon_fallback_and_priority :
    (∀ (env : Env) (a : String) (m : Option String),
      (env.iconsGetIcon m (env.assetPath a false)).1 ≠ StatusCode.NOT_FOUND →
      get_icon env a m = env.iconsGetIcon m (env.assetPath a false)) ∧
    (∀ (env : Env) (a : String) (m : Option String),
      (env.iconsGetIcon m (env.assetPath a false)).1 = StatusCode.NOT_FOUND →
      env.assetPath a true = env.assetPath a false →
      get_icon env a m = env.iconsGetIcon m (env.assetPath a false)) ∧
    (∀ (env : Env) (a : String) (m : Option String),
      (env.iconsGetIcon m (env.assetPath a false)).1 = StatusCode.NOT_FOUND →
      env.assetPath a true ≠ env.assetPath a false →
      get_icon env a m = env.iconsGetIcon m (env.assetPath a true)) ∧
    (∀ (env : Env) (files : String → Option (List Nat)) (hash : List Nat → String)
      (a : String) (b : List Nat),
      env.iconsGetIcon = content_respond files hash →
      files (env.assetPath a false) = some b → b ≠ [] →
      get_icon env a none = (StatusCode.OK, some (hash b), some b)) := by
  refine ⟨?_, ?_, ?_, ?_⟩
  · intro env a m h; simp [get_icon, h]
  · intro env a m h he; simp [get_icon, h, he]
  · intro env a m h hne; simp [get_icon, h, hne]
  · intro env files hash a b henv hf hb
    have hlen : ¬b.length = 0 := by simpa using hb
    simp [get_icon, henv, content_respond, hf, hlen]

/-- C5, witness: with both a non-empty own icon and a distinct non-empty
collection icon present under the spec-modelled responder, the own icon's
bytes are served. -/
theorem get_icon_fallback_and_priority_witness :
    get_icon envF "XDAI" none = (StatusCode.OK, some (hashF [1, 2]), some [1, 2]) ∧
    filesF (envF.assetPath "XDAI" true) = some [3] := by
  refine ⟨?_, by decide⟩
  exact get_icon_fallback_and_priority.2.2.2 envF filesF hashF "XDAI" [1, 2] rfl
    (by decide) (by decide)

/-- C6: chain order of `check_icon` when the own path yields no usable icon —
the collection candidate is consulted only when its path differs from the own
path, any non-`NotFound` result from it is returned immediately, and otherwise
the underlying asset (when one exists) is checked with `force_refresh`
forwarded, its result returned unconditionally. -/
theorem check_icon_chain_order (env : Env) (st : St) (a u : String) (fr : Option Bool)
    (hown : find_usable_icon env (env.assetPath a false) a = none) :
    (env.assetPath a true ≠ env.assetPath a false →
      (check_icon_for_asset_id env st a (env.assetPath a true) fr).1 ≠
        StatusCode.NOT_FOUND →
      check_icon env st a fr = check_icon_for_asset_id env st a (env.assetPath a true) fr) ∧
    (env.assetPath a true ≠ env.assetPath a false →
      (check_icon_for_asset_id env st a (env.assetPath a true) fr).1 =
        StatusCode.NOT_FOUND →
      get_underlying_id env a = some u →
      check_icon env st a fr =
        check_icon_for_asset_id env
          (check_icon_for_asset_id env st a (env.assetPath a true) fr).2 u
          (env.assetPath u false) fr) ∧
    (env.assetPath a true = env.assetPath a false →
      get_underlying_id env a = some u →
      check_icon env st a fr =
        check_icon_for_asset_id env st u (env.assetPath u false) fr) := by
  refine ⟨?_, ?_, ?_⟩
  · intro hne hnf
    simp [check_icon, hown, hne, hnf]
  · intro hne hnf hu
    simp [check_icon, hown, hne, hnf, check_icon_tail, hu]
  · intro he hu
    simp [check_icon, hown, he, check_icon_tail, hu]

/-- C6, witness: for an asset whose collection path collapses to the own path
and whose metadata store reports underlying asset `U`, the check result is
exactly the underlying check's result. -/
theorem check_icon_chain_order_witness :
    check_icon envG st0 "X" none =
      check_icon_for_asset_id envG st0 "U" (envG.assetPath "U" false) none :=
  (check_icon_chain_order envG st0 "X" "U" none (by decide)).2.2 (by decide) (by decide)

/-- C7: the read path never consults the underlying-asset hop — `get_icon` is
fully determined by the path resolver and the content responder (two oracles
agreeing on those two collaborators give identical results, whatever their
underlying lookups do), and its result is always the responder's answer for
the own path or for the collection path. -/
theorem get_icon_no_underlying_hop :
    (∀ (env1 env2 : Env) (a : String) (m : Option String),
      env1.assetPath = env2.assetPath → env1.iconsGetIcon = env2.iconsGetIcon →
      get_icon env1 a m = get_icon env2 a m) ∧
    (∀ (env : Env) (a : String) (m : Option String),
      get_icon env a m = env.iconsGetIcon m (env.assetPath a false) ∨
      get_icon env a m = env.iconsGetIcon m (env.assetPath a true)) := by
  constructor
  · intro env1 env2 a m hp hg; simp [get_icon, hp, hg]
  · intro env a m
    by_cases h : (env.iconsGetIcon m (env.assetPath a false)).1 = StatusCode.NOT_FOUND
    · by_cases he : env.assetPath a true = env.assetPath a false
      · left; simp [get_icon, h, he]
      · right; simp [get_icon, h, he]
    · left; simp [get_icon, h]

/-- C7, witness: an oracle whose underlying lookup errors and one whose
lookup succeeds with no relation produce identical `get_icon` results. -/
theorem get_icon_no_underlying_hop_witness :
    get_icon envBase "X" none = get_icon envH "X" none ∧
    envH.underlying "X" = Except.error () ∧
    envBase.underlying "X" = Except.ok none :=
  ⟨get_icon_no_underlying_hop.1 envBase envH "X" none rfl rfl, rfl, rfl⟩

/-- C8: a zero-length cache file whose last-modified time cannot be read, or
whose elapsed duration cannot be computed, yields `InternalError` — distinct
from both `NotFound` and `Accepted` — both at the level of
`handle_empty_icon` and for a whole `check_icon` call that reaches such a
file at the collection hop. -/
theorem check_icon_unreadable_mtime_internal_error :
    (∀ (env : Env) (st : St) (a p f : String) (m : Metadata),
      m.modified = Except.error () →
      handle_empty_icon env st a p f m = (StatusCode.INTERNAL_SERVER_ERROR, st)) ∧
    (∀ (env : Env) (st : St) (a p f : String) (t : Nat) (m : Metadata),
      m.modified = Except.ok t → env.durationSince t = Except.error () →
      handle_empty_icon env st a p f m = (StatusCode.INTERNAL_SERVER_ERROR, st)) ∧
    (∀ (env : Env) (st : St) (a f : String) (m : Metadata) (fr : Option Bool),
      find_usable_icon env (env.assetPath a false) a = none →
      env.assetPath a true ≠ env.assetPath a false →
      env.findIcon (env.assetPath a true) a = some f →
      env.metadata f = Except.ok m → m.len = 0 → m.modified = Except.error () →
      check_icon env st a fr = (StatusCode.INTERNAL_SERVER_ERROR, st)) := by
  refine ⟨?_, ?_, ?_⟩
  · intro env st a p f m hm
    simp [handle_empty_icon, hm]
  · intro env st a p f t m hm hd
    simp [handle_empty_icon, hm, hd]
  · intro env st a f m fr hown hne hfi hmet hlen hmod
    simp [check_icon, hown, hne, check_icon_for_asset_id, hfi, hmet, hlen,
      handle_empty_icon, hmod]

/-- C8, witness: a concrete zero-length collection marker with unreadable
mtime makes the whole `check_icon` call fail internally. -/
theorem check_icon_unreadable_mtime_witness :
    check_icon envI st0 "XDAI" none = (StatusCode.INTERNAL_SERVER_ERROR, st0) :=
  check_icon_unreadable_mtime_internal_error.2.2 envI st0 "XDAI" "collfile"
    { len := 0, modified := Except.error () } none (by decide) (by decide) (by decide)
    rfl rfl rfl

/-- C9: a failing underlying-asset lookup is treated exactly as "no underlying
relation": the error never becomes the call's status, the call proceeds to
dispatch a fetch against the asset's own path, and an oracle whose lookup
errors is indistinguishable from one whose lookup succeeds with `none`. -/
theorem underlying_lookup_error_degrades (env env2 : Env) (st : St) (a : String)
    (fr : Option Bool)
    (herr : env.underlying a = Except.error ())
    (hown : find_usable_icon env (env.assetPath a false) a = none)
    (hcoll : env.assetPath a true = env.assetPath a false) :
    check_icon env st a fr = query_icon st a (env.assetPath a false) ∧
    (env2.assetPath = env.assetPath → env2.findIcon = env.findIcon →
      env2.metadata = env.metadata → env2.removeFile = env.removeFile →
      env2.durationSince = env.durationSince → env2.underlying a = Except.ok none →
      check_icon env2 st a fr = check_icon env st a fr) := by
  have h1 : check_icon env st a fr = query_icon st a (env.assetPath a false) := by
    simp [check_icon, hown, hcoll, check_icon_tail, get_underlying_id, herr]
  refine ⟨h1, ?_⟩
  intro hp hf hm hr hd hu
  have hfu : find_usable_icon env2 (env2.assetPath a false) a = none := by
    unfold find_usable_icon at hown ⊢
    rw [hp, hf, hm]
    exact hown
  have hc2 : env2.assetPath a true = env2.assetPath a false := by
    rw [hp]; exact hcoll
  have h2 : check_icon env2 st a fr = query_icon st a (env2.assetPath a false) := by
    simp [check_icon, hfu, hc2, check_icon_tail, get_underlying_id, hu]
  rw [h2, h1, hp]

/-- C9, witness: for a concrete oracle whose underlying lookup errors, the
check dispatches a fetch for the own path and agrees with the oracle whose
lookup succeeds with no relation. -/
theorem underlying_lookup_error_degrades_witness :
    check_icon envJ st0 "X" none = query_icon st0 "X" "own" ∧
    check_icon envBase st0 "X" none = check_icon envJ st0 "X" none := by
  have h := underlying_lookup_error_degrades envJ envBase st0 "X" none rfl (by decide) rfl
  exact ⟨h.1, h.2 rfl rfl rfl rfl rfl rfl⟩

/-- C10: on the stale-negative retry path (zero-length marker at or past the
recheck period, no forced refresh) a failed deletion of the expired marker is
silently ignored — the fetch is still spawned and the call still returns
`Accepted` — whereas the same deletion failure under forced refresh of a
usable icon is a hard `InternalError`. -/
theorem stale_marker_delete_failure_ignored :
    (∀ (env : Env) (st : St) (a p f : String) (t d : Nat) (m : Metadata),
      m.modified = Except.ok t → env.durationSince t = Except.ok d →
      MAX_ICON_RECHECK_PERIOD ≤ d → env.removeFile f = Except.error () →
      handle_empty_icon env st a p f m =
        (StatusCode.ACCEPTED, { st with spawned := st.spawned ++ [(a, p)] })) ∧
    (∀ (env : Env) (st : St) (a p f : String),
      env.removeFile f = Except.error () →
      handle_non_empty_icon env st a p f (some true) =
        (StatusCode.INTERNAL_SERVER_ERROR, st)) := by
  constructor
  · intro env st a p f t d m hm hd hle hrm
    simp [handle_empty_icon, hm, hd, Nat.not_lt.mpr hle, hrm]
  · intro env st a p f hrm
    simp [handle_non_empty_icon, hrm]

/-- C10, witness: a concrete stale marker with a failing deletion still
spawns the fetch and returns `Accepted`, while the forced-refresh path with
the same failing deletion returns `InternalError`. -/
theorem stale_marker_delete_failure_witness :
    handle_empty_icon envK st0 "a" "p" "f" { len := 0, modified := Except.ok 0 } =
      (StatusCode.ACCEPTED, { st0 with spawned := [("a", "p")] }) ∧
    handle_non_empty_icon envK st0 "a" "p" "f" (some true) =
      (StatusCode.INTERNAL_SERVER_ERROR, st0) := by
  have h1 := stale_marker_delete_failure_ignored.1 envK st0 "a" "p" "f" 0
    MAX_ICON_RECHECK_PERIOD { len := 0, modified := Except.ok 0 } rfl rfl (le_refl _) rfl
  have h2 := stale_marker_delete_failure_ignored.2 envK st0 "a" "p" "f" rfl
  exact ⟨h1, h2⟩

end Colibri
